/-
Verification of the ASETmarker Marking & Analysis Engine.

This file gives a shallow embedding of the pure core of the repository:

* `src/web/services/marker.py`   — value normalizer, label resolver, scorer
  (`MarkingService._normalize_marked_value`, `._lookup_response`,
   `._evaluate_responses`, `.process_single_subject`);
* `src/web/routes/batch.py`      — the QR/AR subject splitter inside
  `_process_batch_student` (slicing of already-scored results);
* `src/web/services/analysis.py` — concept aggregator and analysis compiler
  (`AnalysisService.analyze_subject_performance`, `.generate_full_analysis`);
* `src/web/services/report.py`   — the report's read of the writing score
  from an analysis summary;
* `src/web/routes/dashboard.py`  — `validate_concept_mapping` and the
  configuration acceptance logic of `configure_marking`;
* `src/web/routes/marking.py`    — the marking decision core of
  `process_single_student`.

Modelling conventions: Python dicts are association lists read in insertion
order with unique keys; a raw detection value (which in Python may be `None`,
a string, or a list of strings) is the inductive type `Val`; Python floats
are modelled by exact rationals (all percentages involved are exact at this
precision); Python string case folding and digit tests are ASCII, matching
the label alphabets produced by the sheet templates.  Image decoding and the
OMR engine are external collaborators (spec section 1): a `RawResp` models
the detection map `get_concatenated_response` hands to the scorer.
-/
import Mathlib

set_option linter.unusedVariables false

/-- A raw detection value: Python `None`, a single string, or a list of
strings (several bubbles detected for one field). -/
inductive Val where
  | null : Val
  | str (s : String) : Val
  | list (vs : List String) : Val
deriving Repr, DecidableEq

/-- A raw response map (Python dict in insertion order, keys unique). -/
abbrev RawResp := List (String × Val)

/-- Python `s.strip()` (whitespace trim at both ends). -/
def pyStrip (s : String) : String :=
  String.mk (((s.toList.dropWhile Char.isWhitespace).reverse.dropWhile Char.isWhitespace).reverse)

/-- Python `s.upper()` (ASCII case folding). -/
def pyUpper (s : String) : String := String.mk (s.toList.map Char.toUpper)

/-- Python `s.lower()` (ASCII case folding). -/
def pyLower (s : String) : String := String.mk (s.toList.map Char.toLower)

/-- Python `",".join l`. -/
def joinComma : List String → String
  | [] => ""
  | [x] => x
  | x :: xs => x ++ "," ++ joinComma xs

/-- Lexicographic code-point comparison of char lists (Python string `<`). -/
def charListLt : List Char → List Char → Bool
  | [], [] => false
  | [], _ :: _ => true
  | _ :: _, [] => false
  | a :: as, b :: bs => if a < b then true else if b < a then false else charListLt as bs

/-- Insert into an ascending list, keeping existing order on ties. -/
def insertSorted (x : String) : List String → List String
  | [] => [x]
  | y :: ys => if charListLt x.toList y.toList then x :: y :: ys else y :: insertSorted x ys

/-- Python `sorted` on a list of strings (ascending lexicographic). -/
def pySort : List String → List String
  | [] => []
  | x :: xs => insertSorted x (pySort xs)

/-- Python `"," in s`. -/
def containsComma (s : String) : Bool := s.toList.contains ','

/-- `MarkingService._normalize_marked_value` (marker.py lines 104-120):
`None` and the empty list normalize to `""`; a single value is trimmed and
upper-cased; several values are sorted, each trimmed and upper-cased, and
comma-joined; any other value is stringified, trimmed and upper-cased. -/
def normalize_marked_value : Val → String
  | .null => ""
  | .list [] => ""
  | .list [v] => pyUpper (pyStrip v)
  | .list vs => joinComma ((pySort vs).map (fun v => pyUpper (pyStrip v)))
  | .str s => pyUpper (pyStrip s)

/-- First value bound to exactly `key` in the response map. -/
def lookupAssoc (resp : RawResp) (key : String) : Option Val :=
  (resp.find? (fun kv => kv.fst == key)).map (·.snd)

/-- The maximal trailing digit run of a label
(Python `re.search(r'(\d+)$', label)`). -/
def trailingDigits (label : String) : String :=
  String.mk ((label.toList.reverse.takeWhile Char.isDigit).reverse)

/-- The fixed, ordered alias list tried by the label resolver
(marker.py line 147). -/
def aliasList : List String := ["q", "Q", "rc", "RC", "qr", "QR", "ar", "AR"]

/-- The alias loop of `_lookup_response` (marker.py lines 147-150): try each
alias prepended to the digit run, in list order. -/
def tryAliases (resp : RawResp) (num : String) : List String → Option Val
  | [] => none
  | p :: ps =>
    match lookupAssoc resp (p ++ num) with
    | some v => some v
    | none => tryAliases resp num ps

/-- `MarkingService._lookup_response` (marker.py lines 122-152), with the
final `return ""` kept apart: `none` is the fall-through.  Step 1: exact key.
Step 2: first key equal up to case (the code tests both lower-cased and
upper-cased forms).  Step 3: the trailing digit run bare, then with each
alias of `aliasList`. -/
def lookup_response_opt (resp : RawResp) (label : String) : Option Val :=
  match lookupAssoc resp label with
  | some v => some v
  | none =>
    match (resp.find? (fun kv =>
        pyLower kv.fst == pyLower label || pyUpper kv.fst == pyUpper label)).map (·.snd) with
    | some v => some v
    | none =>
      let num := trailingDigits label
      if num = "" then none
      else
        match lookupAssoc resp num with
        | some v => some v
        | none => tryAliases resp num aliasList

/-- `MarkingService._lookup_response` with the code's `return ""`
fall-through. -/
def lookup_response (resp : RawResp) (label : String) : Val :=
  (lookup_response_opt resp label).getD (.str "")

/-- One scored question (`QuestionResult` dataclass, marker.py 54-59).
`correct_value` is stored raw, as in the code. -/
structure QuestionResult where
  label : String
  marked_value : String
  correct_value : String
  is_correct : Bool
deriving Repr, DecidableEq

/-- The per-entry body of `_evaluate_responses` (marker.py lines 157-177). -/
def evalEntry (resp : RawResp) (label correct_value : String) : QuestionResult :=
  let raw_marked := lookup_response resp label
  let marked_normalized := normalize_marked_value raw_marked
  let correct_normalized := pyUpper (pyStrip correct_value)
  let is_multi := containsComma marked_normalized
  let is_correct := (marked_normalized == correct_normalized) && !is_multi
  let display_marked := if marked_normalized = "" then "(blank)" else marked_normalized
  ⟨label, display_marked, correct_value, is_correct⟩

/-- `MarkingService._evaluate_responses` (marker.py lines 154-178): iterate
the answer key in order, score each entry, and accumulate the number of
correct answers. -/
def evaluate_responses (resp : RawResp) : List (String × String) → List QuestionResult × Nat
  | [] => ([], 0)
  | (label, cv) :: rest =>
    let q := evalEntry resp label cv
    let pr := evaluate_responses resp rest
    (q :: pr.fst, (if q.is_correct then 1 else 0) + pr.snd)

/-- A scored subject (`SubjectResult` dataclass, marker.py 61-69; the image
and template fields belong to the excluded rendering layer). -/
structure SubjectResult where
  subject_name : String
  score : Nat
  total_questions : Nat
  results : List QuestionResult
  omr_response : RawResp
deriving Repr, DecidableEq

/-- The pure tail of `MarkingService.process_single_subject` (marker.py
lines 192-201): score the detection map against the answer key and package
the subject result. -/
def process_single_subject (resp : RawResp) (answer_key : List (String × String))
    (subject_name : String) : SubjectResult :=
  let pr := evaluate_responses resp answer_key
  ⟨subject_name, pr.snd, answer_key.length, pr.fst, resp⟩

/-- The field names of the `SubjectResult` dataclass (marker.py 61-69). -/
def subjectResultFields : List String :=
  ["subject_name", "score", "total_questions", "results", "omr_response",
   "marked_image", "template"]

/-- The keyword arguments each `SubjectResult` construction of the batch
splitter passes (batch.py 299-308 and 309-318): the dataclass field names
plus `clean_image`. -/
def splitCallKeywords : List String :=
  ["subject_name", "score", "total_questions", "results", "omr_response",
   "marked_image", "template", "clean_image"]

/-- The QR/AR subject splitter of the batch route
(batch.py, `_process_batch_student` lines 284-318): slice the already-scored
combined results positionally and recount `is_correct` in each slice
(lines 291-296); then package two subject results (lines 299-318).  Each
packaging call passes every keyword of `splitCallKeywords`; a keyword that
is not a field of the dataclass makes the call raise `TypeError` in Python,
which the route's broad handler turns into a student-level Error, so the
split results are produced only if all keywords are fields. -/
def split_qrar_results (combined : SubjectResult) (qr_len ar_len : Nat) :
    Except String (SubjectResult × SubjectResult) :=
  let qr_results := combined.results.take qr_len
  let ar_results := (combined.results.drop qr_len).take ar_len
  let qr_score := qr_results.countP (·.is_correct)
  let ar_score := ar_results.countP (·.is_correct)
  if splitCallKeywords.all (fun k => subjectResultFields.contains k) then
    .ok (⟨"Quantitative Reasoning", qr_score, qr_len, qr_results, combined.omr_response⟩,
         ⟨"Abstract Reasoning", ar_score, ar_len, ar_results, combined.omr_response⟩)
  else
    .error "TypeError: unexpected keyword argument clean_image" 

/-- One learning area outcome (`LearningAreaResult` dataclass,
analysis.py 12-19).  Python's float percentage is modelled exactly by ℚ. -/
structure LearningAreaResult where
  area : String
  correct : Nat
  total : Nat
  percentage : ℚ
  status : String
  question_numbers : String
deriving Repr, DecidableEq

/-- One subject's concept analysis (`SubjectAnalysis` dataclass,
analysis.py 5-9); `unmapped_questions` is a Python set turned into a list,
modelled as a `Finset`. -/
structure SubjectAnalysis where
  subject : String
  area_results : List LearningAreaResult
  unmapped_questions : Finset String
deriving DecidableEq

/-- A concept mapping: subject → area → ordered id list
(insertion-ordered dicts). -/
abbrev ConceptMap := List (String × List (String × List String))

/-- `normalize_label` inside `analyze_subject_performance`
(analysis.py 41-43): keep only the digits of a label. -/
def normalize_label (label : String) : String :=
  String.mk (label.toList.filter Char.isDigit)

/-- The `correct_lookup` dict of analysis.py line 46, built by comprehension:
a later entry with the same digits-only label overwrites an earlier one, and
a missing key reads as `False` (`dict.get(key, False)`). -/
def lookupCorrect (question_results : List (String × Bool)) (key : String) : Bool :=
  match question_results.reverse.find? (fun p => normalize_label p.fst == key) with
  | some p => p.snd
  | none => false

/-- `self.concept_map.get(subject, {})` (analysis.py line 48). -/
def subjectMapOf (cm : ConceptMap) (subject : String) : List (String × List String) :=
  ((cm.find? (fun p => p.fst == subject)).map (·.snd)).getD []

/-- Python `", ".join l`. -/
def joinCommaSpace : List String → String
  | [] => ""
  | [x] => x
  | x :: xs => x ++ ", " ++ joinCommaSpace xs

/-- The mastery threshold (`AnalysisService.THRESHOLD`, analysis.py 27). -/
def THRESHOLD : ℚ := 51

/-- The area loop body of `analyze_subject_performance`
(analysis.py lines 52-77): count correct ids through the digits-only lookup,
guard the percentage against `total == 0`, and classify by the inclusive
51.0 threshold. -/
def mkAreaResult (question_results : List (String × Bool))
    (area : String) (questions : List String) : LearningAreaResult :=
  let total := questions.length
  let correct_count := questions.countP (fun q => lookupCorrect question_results (normalize_label q))
  let percentage : ℚ := if 0 < total then (correct_count : ℚ) / (total : ℚ) * 100 else 0
  let status := if THRESHOLD ≤ percentage then "Done well" else "Needs improvement"
  ⟨area, correct_count, total, percentage, status, joinCommaSpace (questions.map normalize_label)⟩

/-- The raw union of all area id lists (the `mapped_questions` set of
analysis.py lines 50 and 78). -/
def mappedIds (subject_map : List (String × List String)) : Finset String :=
  subject_map.foldl (fun acc p => acc ∪ p.snd.toFinset) ∅

/-- The `all_labels` set of analysis.py line 81. -/
def allLabels (question_results : List (String × Bool)) : Finset String :=
  (question_results.map (·.fst)).toFinset

/-- `AnalysisService.analyze_subject_performance` (analysis.py lines 35-88).
A question result is the pair (label, is_correct) handed over by
`generate_full_analysis`. -/
def analyze_subject_performance (cm : ConceptMap) (subject : String)
    (question_results : List (String × Bool)) : SubjectAnalysis :=
  let subject_map := subjectMapOf cm subject
  let area_results := subject_map.map (fun p => mkAreaResult question_results p.fst p.snd)
  let unmapped := allLabels question_results \ mappedIds subject_map
  ⟨subject, area_results, unmapped⟩

/-- The per-subject summary entry built by `generate_full_analysis`
(analysis.py lines 106-110). -/
structure SubjectSummary where
  done_well : List String
  needs_improvement : List String
  unmapped_questions : Finset String
deriving DecidableEq

/-- A value of the heterogeneous `summary` dict of `FullAnalysis`
(`Dict[str, Any]`): either a subject's summary object or a bare number. -/
inductive SummaryVal where
  | subj (s : SubjectSummary) : SummaryVal
  | num (n : Int) : SummaryVal
deriving DecidableEq

/-- `FullAnalysis` dataclass (analysis.py 21-24): per-subject area lists and
the summary dict.  It has exactly these two fields. -/
structure FullAnalysis where
  subject_areas : List (String × List LearningAreaResult)
  summary : List (String × SummaryVal)
deriving DecidableEq

/-- `AnalysisService.generate_full_analysis` (analysis.py lines 91-111):
run the aggregator once per subject in the fixed order Reading,
Quantitative Reasoning, Abstract Reasoning; it receives no writing score. -/
def generate_full_analysis (cm : ConceptMap)
    (reading qr ar : SubjectResult) : FullAnalysis :=
  let build := fun (subj : String) (result : SubjectResult) =>
    let analysis := analyze_subject_performance cm subj
      (result.results.map (fun q => (q.label, q.is_correct)))
    (analysis,
     SubjectSummary.mk
       ((analysis.area_results.filter (fun a => a.status == "Done well")).map (·.area))
       ((analysis.area_results.filter (fun a => a.status == "Needs improvement")).map (·.area))
       analysis.unmapped_questions)
  let r := build "Reading" reading
  let q := build "Quantitative Reasoning" qr
  let a := build "Abstract Reasoning" ar
  ⟨[("Reading", r.fst.area_results),
    ("Quantitative Reasoning", q.fst.area_results),
    ("Abstract Reasoning", a.fst.area_results)],
   [("Reading", .subj r.snd),
    ("Quantitative Reasoning", .subj q.snd),
    ("Abstract Reasoning", .subj a.snd)]⟩

/-- `analysis.summary.get('writing_score')` as read by the report renderer
(report.py line 33), before its default. -/
def getWritingScore (fa : FullAnalysis) : Option SummaryVal :=
  (fa.summary.find? (fun p => p.fst == "writing_score")).map (·.snd)

/-- The report's writing value, `analysis.summary.get('writing_score', 0)`
(report.py line 33). -/
def reportWritingScore (fa : FullAnalysis) : SummaryVal :=
  (getWritingScore fa).getD (.num 0)

/-- A parsed JSON value, as handed to `validate_concept_mapping` by
`json.loads` (dashboard.py line 244). -/
inductive Json where
  | str (s : String) : Json
  | num (n : Int) : Json
  | bool (b : Bool) : Json
  | null : Json
  | arr (xs : List Json) : Json
  | obj (kvs : List (String × Json)) : Json

/-- Python `s.startswith("_")`. -/
def startsUnderscore (s : String) : Bool :=
  match s.toList with
  | '_' :: _ => true
  | _ => false

/-- The question loop of `validate_concept_mapping` (dashboard.py 128-132):
one error per entry that is not a non-blank string. -/
def validateQuestions (subject area : String) : List Json → List String
  | [] => []
  | q :: rest =>
    (match q with
     | .str s =>
       if pyStrip s = "" then
         ["Area " ++ area ++ " in subject " ++ subject ++ " contains an invalid question identifier."]
       else []
     | _ => ["Area " ++ area ++ " in subject " ++ subject ++ " contains an invalid question identifier."])
      ++ validateQuestions subject area rest

/-- The area loop of `validate_concept_mapping` (dashboard.py 122-132):
a non-list area value is one error and its entries are skipped. -/
def validateAreas (subject : String) : List (String × Json) → List String
  | [] => []
  | (area, questions) :: rest =>
    (match questions with
     | .arr qs => validateQuestions subject area qs
     | _ => ["Area " ++ area ++ " in subject " ++ subject ++ " must be a list of question identifiers."])
      ++ validateAreas subject rest

/-- The subject loop of `validate_concept_mapping` (dashboard.py 116-132):
keys starting with `_` are instructional metadata and are skipped; a
non-object subject value is one error and its areas are skipped. -/
def validateSubjects : List (String × Json) → List String
  | [] => []
  | (subject, areas) :: rest =>
    (if startsUnderscore subject then []
     else match areas with
       | .obj ars => validateAreas subject ars
       | _ => ["Subject " ++ subject ++ " must map to an object of areas."])
      ++ validateSubjects rest

/-- `validate_concept_mapping` (dashboard.py lines 110-133). -/
def validate_concept_mapping : Json → List String
  | .obj kvs => validateSubjects kvs
  | _ => ["Concept mapping must be a JSON object."]

/-- The strict mapping structure the validator is meant to enforce: every
non-underscore subject maps to an object of areas, each area to a list of
strings that are non-blank after trimming. -/
def strictMappingOk : List (String × Json) → Bool
  | [] => true
  | (subject, areas) :: rest =>
    (if startsUnderscore subject then true
     else match areas with
       | .obj ars => ars.all (fun p =>
           match p.snd with
           | .arr qs => qs.all (fun q =>
               match q with
               | .str s => !(pyStrip s = "")
               | _ => false)
           | _ => false)
       | _ => false)
      && strictMappingOk rest

/-- The stored per-session configuration (`MarkingConfiguration`,
session_store.py 12-24). -/
structure MarkingConfiguration where
  reading_answers : List String
  qr_answers : List String
  ar_answers : List String
  concept_mapping : Json

/-- `MarkingConfiguration.is_configured` (session_store.py 22-24): at least
one answer-key list is non-empty. -/
def MarkingConfiguration.is_configured (c : MarkingConfiguration) : Bool :=
  !c.reading_answers.isEmpty || !c.qr_answers.isEmpty || !c.ar_answers.isEmpty

/-- One uploaded answer key in `configure_marking` (dashboard.py 203-231):
`none` means no file was uploaded, `some l` the parsed key; an uploaded key
that parsed empty is rejected with HTTP 400. -/
def checkKey (name : String) : Option (List String) → Except String (List String)
  | none => .ok []
  | some [] => .error (name ++ " answer key must contain at least one entry.")
  | some l => .ok l

/-- The acceptance core of `configure_marking` (dashboard.py lines 199-265),
after upload parsing: reject an uploaded-but-empty answer key, require at
least one key, validate the concept mapping strictly, then store the
configuration.  An absent concept mapping is stored as the empty object. -/
def configure_marking (reading qr ar : Option (List String)) (concepts : Option Json) :
    Except String MarkingConfiguration := do
  let reading_list ← checkKey "Reading" reading
  let qr_list ← checkKey "QR" qr
  let ar_list ← checkKey "AR" ar
  if reading_list.isEmpty && qr_list.isEmpty && ar_list.isEmpty then
    .error "At least one answer key (Reading, QR, or AR) must be uploaded."
  else
    match concepts with
    | none => .ok ⟨reading_list, qr_list, ar_list, .obj []⟩
    | some j =>
      match validate_concept_mapping j with
      | [] => .ok ⟨reading_list, qr_list, ar_list, j⟩
      | e :: es => .error (joinCommaSpace (e :: es))

/-- The reading answer key built by `process_single_student`
(marking.py line 125): labels are `"1"`, `"2"`, ... in order. -/
def readingKeyOfConfig (c : MarkingConfiguration) : List (String × String) :=
  (c.reading_answers.enum.map (fun p => (toString (p.fst + 1), p.snd)))

/-- The combined QR/AR answer key built by `process_single_student`
(marking.py lines 135-136): the QR answers followed by the AR answers,
labelled `"1"`, `"2"`, ... in order. -/
def qrarKeyOfConfig (c : MarkingConfiguration) : List (String × String) :=
  ((c.qr_answers ++ c.ar_answers).enum.map (fun p => (toString (p.fst + 1), p.snd)))

/-- The marking decision core of `process_single_student`
(marking.py lines 82-142): at least one sheet must be present; each present
sheet is scored against the key enumerated from the stored configuration.
The detection maps stand in for the decoded images. -/
def process_single_student (c : MarkingConfiguration)
    (reading_resp qrar_resp : Option RawResp) :
    Except String (Option SubjectResult × Option SubjectResult) :=
  match reading_resp, qrar_resp with
  | none, none => .error "At least one sheet (Reading or QR/AR) must be uploaded."
  | r, q =>
    .ok (r.map (fun resp => process_single_subject resp (readingKeyOfConfig c) "Reading"),
         q.map (fun resp => process_single_subject resp (qrarKeyOfConfig c) "QR/AR"))

/-- First key of the candidate list that is bound in the response map
(specification side of the resolver claim). -/
def firstKeyHit (resp : RawResp) : List String → Option Val
  | [] => none
  | k :: ks =>
    match lookupAssoc resp k with
    | some v => some v
    | none => firstKeyHit resp ks

/-- First entry whose key equals the label up to ASCII case
(specification side of the resolver claim). -/
def caseInsensitiveHit (resp : RawResp) (label : String) : Option Val :=
  (resp.find? (fun kv =>
    pyLower kv.fst == pyLower label || pyUpper kv.fst == pyUpper label)).map (·.snd)

/-- The resolver as the specification words it: (a) exact key match, else
(b) case-insensitive exact match, else (c) when the label has a trailing
digit run, the first hit among the bare digit run and the digit run with
each alias of the fixed ordered list prepended; absent when none match. -/
def lookupSpecification (resp : RawResp) (label : String) : Option Val :=
  match lookupAssoc resp label with
  | some v => some v
  | none =>
    match caseInsensitiveHit resp label with
    | some v => some v
    | none =>
      if trailingDigits label = "" then none
      else firstKeyHit resp
        (trailingDigits label :: aliasList.map (fun p => p ++ trailingDigits label))

/-- The unmapped set as the coverage claim words it: scored labels whose
digits-only form is not the digits-only form of any mapped id (stated from
the claim, for comparison with the code's raw set difference). -/
def digitsOnlyUnmapped (subject_map : List (String × List String))
    (question_results : List (String × Bool)) : Finset String :=
  (allLabels question_results).filter
    (fun l => normalize_label l ∉ (mappedIds subject_map).image normalize_label)

/-- A one-field multi-mark response: field `RC2` has two detected bubbles
(spec Scenario A, second question). -/
def respMulti : RawResp := [("rc1", .str "A"), ("RC2", .list ["B", "C"])]

/-- Scenario-B concept map: Reading → Vocabulary → q1, q2. -/
def cmScenarioB : ConceptMap := [("Reading", [("Vocabulary", ["q1", "q2"])])]

/-- Scenario-B question results: q1 correct, q2 incorrect. -/
def qrsScenarioB : List (String × Bool) := [("q1", true), ("q2", false)]

/-- Coverage example where every mapped id is itself a scored label. -/
def cmCov : ConceptMap := [("S", [("A", ["RC1"])])]

/-- Scored labels for the coverage example. -/
def qrsCov : List (String × Bool) := [("RC1", true)]

/-- Coverage example where the mapped id `q1` names scored label `RC1` only
through its digits-only form. -/
def cmDig : ConceptMap := [("S", [("A", ["q1"])])]

/-- Scored labels for the digits-only coverage example. -/
def qrsDig : List (String × Bool) := [("RC1", true)]

/-- A scored question for the split scenario. -/
def qd (l : String) (b : Bool) : QuestionResult :=
  ⟨l, if b then "A" else "B", "A", b⟩

/-- Scenario-D combined results: 10 questions, the first 6 correct and
exactly 1 of the last 4 correct. -/
def scenarioD_results : List QuestionResult :=
  [qd "1" true, qd "2" true, qd "3" true, qd "4" true, qd "5" true, qd "6" true,
   qd "7" true, qd "8" false, qd "9" false, qd "10" false]

/-- Scenario-D combined subject result (7 of 10 correct). -/
def scenarioD_combined : SubjectResult :=
  ⟨"QR/AR", 7, 10, scenarioD_results, []⟩

/-- An empty subject result (no questions scored). -/
def srEmpty : SubjectResult := ⟨"X", 0, 0, [], []⟩

/-- A well-formed concept-mapping upload. -/
def jsonOk : Json := .obj [("Reading", .obj [("Vocabulary", .arr [.str "q1"])])]

/-- The configuration stored for the well-formed upload. -/
def cfgOk : MarkingConfiguration := ⟨["A"], [], [], jsonOk⟩

/-- A stored configuration whose Reading answer key is empty because no
Reading key was uploaded (only a QR key was). -/
def cfgEmptyReading : MarkingConfiguration := ⟨[], ["A"], [], .obj []⟩

/-! Helper lemmas about the embedded operations. -/

theorem length_insertSorted (x : String) (l : List String) :
    (insertSorted x l).length = l.length + 1 := by
  induction l with
  | nil => rfl
  | cons y ys ih =>
    unfold insertSorted
    split <;> simp [ih]

theorem length_pySort (l : List String) : (pySort l).length = l.length := by
  induction l with
  | nil => rfl
  | cons x xs ih => simp [pySort, length_insertSorted, ih]

theorem containsComma_joinComma (x y : String) (zs : List String) :
    containsComma (joinComma (x :: y :: zs)) = true := by
  show containsComma (x ++ "," ++ joinComma (y :: zs)) = true
  simp [containsComma, String.toList, String.data_append]

theorem normalize_list_two_contains_comma (vs : List String) (h : 2 ≤ vs.length) :
    containsComma (normalize_marked_value (.list vs)) = true := by
  match vs, h with
  | v1 :: v2 :: rest, _ =>
    show containsComma
      (joinComma ((pySort (v1 :: v2 :: rest)).map (fun v => pyUpper (pyStrip v)))) = true
    have hlen : 2 ≤ ((pySort (v1 :: v2 :: rest)).map (fun v => pyUpper (pyStrip v))).length := by
      simp [length_pySort]
    cases hm : (pySort (v1 :: v2 :: rest)).map (fun v => pyUpper (pyStrip v)) with
    | nil => rw [hm] at hlen; simp at hlen
    | cons a t =>
      cases t with
      | nil => rw [hm] at hlen; simp at hlen
      | cons b cs => exact containsComma_joinComma a b cs

theorem evaluate_responses_fst (resp : RawResp) (akey : List (String × String)) :
    (evaluate_responses resp akey).fst = akey.map (fun p => evalEntry resp p.fst p.snd) := by
  induction akey with
  | nil => rfl
  | cons hd tl ih =>
    cases hd with
    | mk label cv => simp [evaluate_responses, ih]

theorem evaluate_responses_snd (resp : RawResp) (akey : List (String × String)) :
    (evaluate_responses resp akey).snd
      = (evaluate_responses resp akey).fst.countP (·.is_correct) := by
  induction akey with
  | nil => rfl
  | cons hd tl ih =>
    cases hd with
    | mk label cv =>
      simp [evaluate_responses, List.countP_cons, ih]
      split <;> simp [Nat.add_comm]

theorem evaluate_responses_length (resp : RawResp) (akey : List (String × String)) :
    (evaluate_responses resp akey).fst.length = akey.length := by
  rw [evaluate_responses_fst]; simp

/-! Theorems settling the specification claims. -/

/-- Claim C1: a question whose raw detected value has more than one entry is
scored incorrect regardless of the expected answer: the scorer's results are
exactly the per-entry evaluations, and any entry whose resolved raw value is
a list of two or more detections has `is_correct = false`, whatever
`correct_value` is — the comma-joined multi-mark form always fails the
comparison because of the explicit multi-mark guard. -/
theorem scorer_multi_mark_incorrect (resp : RawResp) (akey : List (String × String)) :
    (evaluate_responses resp akey).fst = akey.map (fun p => evalEntry resp p.fst p.snd) ∧
    ∀ label cv vs, lookup_response resp label = .list vs → 2 ≤ vs.length →
      (evalEntry resp label cv).is_correct = false := by
  refine ⟨evaluate_responses_fst resp akey, ?_⟩
  intro label cv vs hl hlen
  have hc := normalize_list_two_contains_comma vs hlen
  simp only [evalEntry, hl, hc]
  simp

/-- Witness for C1 at Scenario A: field `RC2` carries two detections and the
matching question is scored incorrect even though one detection equals the
expected answer. -/
theorem scorer_multi_mark_incorrect_witness :
    lookup_response respMulti "RC2" = .list ["B", "C"] ∧
    (evalEntry respMulti "RC2" "B").is_correct = false :=
  ⟨by decide,
   (scorer_multi_mark_incorrect respMulti []).2 "RC2" "B" ["B", "C"] (by decide) (by decide)⟩

/-- Claim C2: every subject result produced by the scorer satisfies
`score = count(is_correct)` and `total_questions = len(results)`, the latter
equal to the number of answer-key entries. -/
theorem subject_result_score_invariant (resp : RawResp)
    (akey : List (String × String)) (name : String) :
    (process_single_subject resp akey name).score
      = (process_single_subject resp akey name).results.countP (·.is_correct) ∧
    (process_single_subject resp akey name).total_questions
      = (process_single_subject resp akey name).results.length ∧
    (process_single_subject resp akey name).results.length = akey.length := by
  refine ⟨?_, ?_, ?_⟩
  · exact evaluate_responses_snd resp akey
  · exact (evaluate_responses_length resp akey).symm
  · exact evaluate_responses_length resp akey

/-- Claim C3 (code bug): the batch splitter computes exactly the partition
the claim describes — at the Scenario-D input the first slice of 6 counts 6
correct and the remaining slice of 4 counts 1, adding up to the combined
score 7 — but every packaging call passes the keyword `clean_image`, which
is not a field of the `SubjectResult` dataclass, so the construction raises
`TypeError` on every invocation and the split subject results are never
produced. -/
theorem split_qrar_packaging_raises :
    (∀ (combined : SubjectResult) (qr_len ar_len : Nat),
      split_qrar_results combined qr_len ar_len
        = .error "TypeError: unexpected keyword argument clean_image") ∧
    subjectResultFields.contains "clean_image" = false ∧
    splitCallKeywords.contains "clean_image" = true ∧
    (scenarioD_combined.results.take 6).countP (·.is_correct) = 6 ∧
    ((scenarioD_combined.results.drop 6).take 4).countP (·.is_correct) = 1 ∧
    (scenarioD_combined.results.take 6).countP (·.is_correct)
        + ((scenarioD_combined.results.drop 6).take 4).countP (·.is_correct)
      = scenarioD_combined.score :=
  ⟨fun combined qr_len ar_len => rfl, by decide, by decide, by decide, by decide, by decide⟩

/-- Claim C4: every learning-area result produced by the concept aggregator
has a percentage between 0 and 100, a percentage of 0 when the area has no
questions (the division is guarded, never taken), and the status
`"Done well"` exactly when the percentage reaches the inclusive threshold
51.0, `"Needs improvement"` otherwise. -/
theorem learning_area_percentage_bounds (cm : ConceptMap) (subject : String)
    (qrs : List (String × Bool)) (a : LearningAreaResult)
    (ha : a ∈ (analyze_subject_performance cm subject qrs).area_results) :
    0 ≤ a.percentage ∧ a.percentage ≤ 100 ∧
    (a.total = 0 → a.percentage = 0) ∧
    (a.status = "Done well" ↔ 51 ≤ a.percentage) ∧
    (¬ 51 ≤ a.percentage → a.status = "Needs improvement") := by
  obtain ⟨p, hp, rfl⟩ := List.mem_map.mp ha
  set c := p.snd.countP (fun q => lookupCorrect qrs (normalize_label q)) with hc
  have hcle : c ≤ p.snd.length := List.countP_le_length _
  have hpct : (mkAreaResult qrs p.fst p.snd).percentage
      = if 0 < p.snd.length then (c : ℚ) / (p.snd.length : ℚ) * 100 else 0 := rfl
  have h0 : 0 ≤ (mkAreaResult qrs p.fst p.snd).percentage := by
    rw [hpct]
    split
    · positivity
    · exact le_refl 0
  have h100 : (mkAreaResult qrs p.fst p.snd).percentage ≤ 100 := by
    rw [hpct]
    split
    · rename_i hpos
      have hlt : (0 : ℚ) < (p.snd.length : ℚ) := by exact_mod_cast hpos
      have hdiv : (c : ℚ) / (p.snd.length : ℚ) ≤ 1 := by
        rw [div_le_one hlt]
        exact_mod_cast hcle
      calc (c : ℚ) / (p.snd.length : ℚ) * 100 ≤ 1 * 100 := by
            exact mul_le_mul_of_nonneg_right hdiv (by norm_num)
        _ = 100 := by norm_num
    · norm_num
  refine ⟨h0, h100, ?_, ?_, ?_⟩
  · intro htot
    have : p.snd.length = 0 := htot
    rw [hpct, this]
    simp
  · show (if THRESHOLD ≤ (mkAreaResult qrs p.fst p.snd).percentage
        then "Done well" else "Needs improvement") = "Done well"
        ↔ 51 ≤ (mkAreaResult qrs p.fst p.snd).percentage
    by_cases hth : THRESHOLD ≤ (mkAreaResult qrs p.fst p.snd).percentage
    · rw [if_pos hth]
      exact ⟨fun _ => hth, fun _ => rfl⟩
    · rw [if_neg hth]
      exact ⟨fun habs => absurd habs (by decide), fun h51 => absurd h51 hth⟩
  · intro h51
    show (if THRESHOLD ≤ (mkAreaResult qrs p.fst p.snd).percentage
        then "Done well" else "Needs improvement") = "Needs improvement"
    exact if_neg
      (show ¬ THRESHOLD ≤ (mkAreaResult qrs p.fst p.snd).percentage from h51)

/-- Witness for C4 at Scenario B: the Vocabulary area of the Reading mapping
with q1 correct and q2 incorrect satisfies the bounds, the threshold
equivalence, and the else-branch status. -/
theorem learning_area_percentage_bounds_witness :
    0 ≤ (mkAreaResult qrsScenarioB "Vocabulary" ["q1", "q2"]).percentage ∧
    (mkAreaResult qrsScenarioB "Vocabulary" ["q1", "q2"]).percentage ≤ 100 ∧
    ((mkAreaResult qrsScenarioB "Vocabulary" ["q1", "q2"]).total = 0 →
      (mkAreaResult qrsScenarioB "Vocabulary" ["q1", "q2"]).percentage = 0) ∧
    ((mkAreaResult qrsScenarioB "Vocabulary" ["q1", "q2"]).status = "Done well"
      ↔ 51 ≤ (mkAreaResult qrsScenarioB "Vocabulary" ["q1", "q2"]).percentage) ∧
    (¬ 51 ≤ (mkAreaResult qrsScenarioB "Vocabulary" ["q1", "q2"]).percentage →
      (mkAreaResult qrsScenarioB "Vocabulary" ["q1", "q2"]).status = "Needs improvement") :=
  learning_area_percentage_bounds cmScenarioB "Reading" qrsScenarioB _
    (List.mem_singleton.mpr rfl)

/-- Claim C5 (amended): the aggregator's `unmapped_questions` is the raw set
difference between the scored labels and the union of the area id lists
(literal string comparison, not digits-only); that union is always disjoint
from `unmapped_questions`, and their union equals the scored-label set
whenever every mapped id is itself a scored label. -/
theorem concept_coverage_raw_partition (cm : ConceptMap) (subject : String)
    (qrs : List (String × Bool)) :
    (analyze_subject_performance cm subject qrs).unmapped_questions
      = allLabels qrs \ mappedIds (subjectMapOf cm subject) ∧
    mappedIds (subjectMapOf cm subject)
        ∩ (analyze_subject_performance cm subject qrs).unmapped_questions = ∅ ∧
    (mappedIds (subjectMapOf cm subject) ⊆ allLabels qrs →
      mappedIds (subjectMapOf cm subject)
          ∪ (analyze_subject_performance cm subject qrs).unmapped_questions
        = allLabels qrs) := by
  refine ⟨rfl, ?_, ?_⟩
  · show mappedIds (subjectMapOf cm subject)
        ∩ (allLabels qrs \ mappedIds (subjectMapOf cm subject)) = ∅
    exact Finset.inter_sdiff_self _ _
  · intro hsub
    show mappedIds (subjectMapOf cm subject)
        ∪ (allLabels qrs \ mappedIds (subjectMapOf cm subject)) = allLabels qrs
    exact Finset.union_sdiff_of_subset hsub

/-- Witness for C5 on a mapping whose single id is itself a scored label:
the mapped ids and the unmapped questions partition the scored labels. -/
theorem concept_coverage_raw_partition_witness :
    mappedIds (subjectMapOf cmCov "S")
        ∪ (analyze_subject_performance cmCov "S" qrsCov).unmapped_questions
      = allLabels qrsCov :=
  (concept_coverage_raw_partition cmCov "S" qrsCov).2.2 (by decide)

/-- Counterexample to C5 as stated: with mapping id `q1` and scored label
`RC1`, coverage is compared on raw strings, so `RC1` is reported unmapped
even though its digits-only form `1` is covered by `q1`, and the union of the
mapped ids with the unmapped questions is not the scored-label set. -/
theorem concept_coverage_digits_only_fails :
    (analyze_subject_performance cmDig "S" qrsDig).unmapped_questions
      ≠ digitsOnlyUnmapped (subjectMapOf cmDig "S") qrsDig ∧
    mappedIds (subjectMapOf cmDig "S")
        ∪ (analyze_subject_performance cmDig "S" qrsDig).unmapped_questions
      ≠ allLabels qrsDig := by
  constructor
  · decide
  · decide

theorem tryAliases_eq_firstKeyHit (resp : RawResp) (num : String) (ps : List String) :
    tryAliases resp num ps = firstKeyHit resp (ps.map (fun p => p ++ num)) := by
  induction ps with
  | nil => rfl
  | cons p rest ih =>
    show (match lookupAssoc resp (p ++ num) with
          | some v => some v
          | none => tryAliases resp num rest)
        = (match lookupAssoc resp (p ++ num) with
          | some v => some v
          | none => firstKeyHit resp (rest.map (fun p => p ++ num)))
    cases lookupAssoc resp (p ++ num) with
    | some v => rfl
    | none => exact ih

/-- Claim C6: the label resolver tries, in order, (a) an exact key match,
(b) a case-insensitive exact match, then (c) the trailing digit run of the
label as a bare key followed by that run prefixed with each alias of the
fixed ordered list q, Q, rc, RC, qr, QR, ar, AR; it returns the value of the
first hit and is absent (the code's `""` fall-through) when none match. -/
theorem lookup_response_cascade (resp : RawResp) (label : String) :
    lookup_response_opt resp label = lookupSpecification resp label ∧
    lookup_response resp label = (lookupSpecification resp label).getD (.str "") := by
  have h : lookup_response_opt resp label = lookupSpecification resp label := by
    unfold lookup_response_opt lookupSpecification caseInsensitiveHit
    cases lookupAssoc resp label with
    | some v => rfl
    | none =>
      cases (resp.find? (fun kv =>
          pyLower kv.fst == pyLower label || pyUpper kv.fst == pyUpper label)).map (·.snd) with
      | some v => rfl
      | none =>
        by_cases hnum : trailingDigits label = ""
        · simp [hnum]
        · simp only [hnum, if_neg, if_false]
          rw [show firstKeyHit resp (trailingDigits label
                  :: aliasList.map (fun p => p ++ trailingDigits label))
              = (match lookupAssoc resp (trailingDigits label) with
                 | some v => some v
                 | none => firstKeyHit resp (aliasList.map (fun p => p ++ trailingDigits label)))
              from rfl]
          cases lookupAssoc resp (trailingDigits label) with
          | some v => rfl
          | none => exact tryAliases_eq_firstKeyHit resp (trailingDigits label) aliasList
  exact ⟨h, by rw [lookup_response, h]⟩

/-- Claim C7 (amended): an answer-key entry whose label resolves to no field
of the raw response is scored as blank (`marked_value = "(blank)"`) and
incorrect, provided the entry's expected answer is non-blank after trimming;
a blank expected answer compares equal to the empty normalized marking and
is scored correct.  No error is raised in either case: the resolver's
fall-through value is scored like any other. -/
theorem lookup_miss_blank_incorrect (resp : RawResp) (label cv : String)
    (hmiss : lookup_response_opt resp label = none)
    (hcv : pyUpper (pyStrip cv) ≠ "") :
    (evalEntry resp label cv).marked_value = "(blank)" ∧
    (evalEntry resp label cv).is_correct = false := by
  have hlr : lookup_response resp label = .str "" := by
    rw [lookup_response, hmiss]; rfl
  have hnorm : normalize_marked_value (lookup_response resp label) = "" := by
    rw [hlr]; rfl
  have hbeq : (normalize_marked_value (lookup_response resp label)
      == pyUpper (pyStrip cv)) = false := by
    rw [hnorm]
    exact beq_eq_false_iff_ne.mpr (fun h => hcv h.symm)
  constructor
  · show (if normalize_marked_value (lookup_response resp label) = ""
        then "(blank)" else normalize_marked_value (lookup_response resp label)) = "(blank)"
    rw [if_pos hnorm]
  · show ((normalize_marked_value (lookup_response resp label) == pyUpper (pyStrip cv))
        && !containsComma (normalize_marked_value (lookup_response resp label))) = false
    rw [hbeq, Bool.false_and]

/-- Witness for C7: label `Q1` is absent from the empty response and the
expected answer `A` is non-blank, so the question is scored blank and
incorrect. -/
theorem lookup_miss_blank_incorrect_witness :
    (evalEntry [] "Q1" "A").marked_value = "(blank)" ∧
    (evalEntry [] "Q1" "A").is_correct = false :=
  lookup_miss_blank_incorrect [] "Q1" "A" (by decide) (by decide)

/-- Counterexample to C7 as stated: label `Q7` resolves to no field, yet
with the (blank) expected answer `""` the comparison `"" == ""` succeeds and
the question is scored correct, not incorrect. -/
theorem blank_expected_scored_correct :
    lookup_response_opt [] "Q7" = none ∧
    (evalEntry [] "Q7" "").marked_value = "(blank)" ∧
    (evalEntry [] "Q7" "").is_correct = true := by
  refine ⟨by decide, by decide, by decide⟩

/-- Claim C10: the scorer never emits an empty `marked_value`: every result
it produces has a non-empty `marked_value`, and whenever the resolved
detection normalizes to the empty string the stored `marked_value` is the
literal `"(blank)"` while the correctness comparison itself is still
performed on the empty string against the normalized expected answer. -/
theorem marked_value_never_empty (resp : RawResp) (akey : List (String × String)) :
    (∀ q ∈ (evaluate_responses resp akey).fst, q.marked_value ≠ "") ∧
    (∀ label cv, normalize_marked_value (lookup_response resp label) = "" →
      (evalEntry resp label cv).marked_value = "(blank)" ∧
      (evalEntry resp label cv).is_correct
        = (("" : String) == pyUpper (pyStrip cv))) := by
  constructor
  · intro q hq
    rw [evaluate_responses_fst] at hq
    obtain ⟨p, hp, rfl⟩ := List.mem_map.mp hq
    show (if normalize_marked_value (lookup_response resp p.fst) = ""
        then "(blank)" else normalize_marked_value (lookup_response resp p.fst)) ≠ ""
    by_cases h : normalize_marked_value (lookup_response resp p.fst) = ""
    · rw [if_pos h]; decide
    · rw [if_neg h]; exact h
  · intro label cv h
    constructor
    · show (if normalize_marked_value (lookup_response resp label) = ""
          then "(blank)" else normalize_marked_value (lookup_response resp label)) = "(blank)"
      rw [if_pos h]
    · show ((normalize_marked_value (lookup_response resp label) == pyUpper (pyStrip cv))
          && !containsComma (normalize_marked_value (lookup_response resp label)))
          = (("" : String) == pyUpper (pyStrip cv))
      rw [h]
      rw [show containsComma "" = false from rfl]
      simp

/-- Witness for C10: with the empty response, label `Q1` normalizes to the
empty string, the stored marking is `"(blank)"` (and in particular
non-empty), and the comparison is made on the empty string. -/
theorem marked_value_never_empty_witness :
    (evalEntry [] "Q1" "B").marked_value ≠ "" ∧
    (evalEntry [] "Q1" "B").marked_value = "(blank)" ∧
    (evalEntry [] "Q1" "B").is_correct = (("" : String) == pyUpper (pyStrip "B")) :=
  ⟨(marked_value_never_empty [] [("Q1", "B")]).1 (evalEntry [] "Q1" "B")
      (List.mem_singleton.mpr rfl),
   ((marked_value_never_empty [] []).2 "Q1" "B" (by decide)).1,
   ((marked_value_never_empty [] []).2 "Q1" "B" (by decide)).2⟩

/-- Claim C8 (amended): the analysis compiler neither receives nor derives a
writing score: for every input, the `FullAnalysis` summary holds exactly the
three subject entries (Reading, Quantitative Reasoning, Abstract Reasoning),
carries no `writing_score` field, and a report reading the writing score
from the analysis summary obtains the default 0, whatever writing score the
caller accepted. -/
theorem writing_score_not_in_analysis (cm : ConceptMap) (reading qr ar : SubjectResult) :
    (generate_full_analysis cm reading qr ar).summary.map (·.fst)
      = ["Reading", "Quantitative Reasoning", "Abstract Reasoning"] ∧
    getWritingScore (generate_full_analysis cm reading qr ar) = none ∧
    reportWritingScore (generate_full_analysis cm reading qr ar) = .num 0 := by
  have h : getWritingScore (generate_full_analysis cm reading qr ar) = none := rfl
  exact ⟨rfl, h, by rw [reportWritingScore, h]; rfl⟩

/-- Counterexample to C8 as stated: at a concrete input the compiled
`FullAnalysis` has no writing field at all — its summary keys are exactly
the three subjects, the `writing_score` lookup is absent, and the report's
writing value is the default 0, not a caller-passed score. -/
theorem writing_score_pass_through_refuted :
    getWritingScore (generate_full_analysis [] srEmpty srEmpty srEmpty) = none ∧
    reportWritingScore (generate_full_analysis [] srEmpty srEmpty srEmpty) = .num 0 ∧
    (generate_full_analysis [] srEmpty srEmpty srEmpty).summary.map (·.fst)
      = ["Reading", "Quantitative Reasoning", "Abstract Reasoning"] := by
  exact ⟨rfl, rfl, rfl⟩

theorem validateQuestions_eq_nil_iff (subject area : String) (qs : List Json) :
    validateQuestions subject area qs = []
      ↔ qs.all (fun q =>
          match q with
          | .str s => !(pyStrip s = "")
          | _ => false) = true := by
  induction qs with
  | nil => simp [validateQuestions]
  | cons q rest ih =>
    cases q with
    | str s =>
      by_cases hs : pyStrip s = ""
      · simp [validateQuestions, hs, List.all_cons]
      · simp [validateQuestions, hs, List.all_cons, ih]
    | num n => simp [validateQuestions, List.all_cons]
    | bool b => simp [validateQuestions, List.all_cons]
    | null => simp [validateQuestions, List.all_cons]
    | arr xs => simp [validateQuestions, List.all_cons]
    | obj kvs => simp [validateQuestions, List.all_cons]

theorem validateAreas_eq_nil_iff (subject : String) (ars : List (String × Json)) :
    validateAreas subject ars = []
      ↔ ars.all (fun p =>
          match p.snd with
          | .arr qs => qs.all (fun q =>
              match q with
              | .str s => !(pyStrip s = "")
              | _ => false)
          | _ => false) = true := by
  induction ars with
  | nil => simp [validateAreas]
  | cons hd rest ih =>
    cases hd with
    | mk area questions =>
      cases questions with
      | arr qs =>
        simp only [validateAreas, List.append_eq_nil, List.all_cons, Bool.and_eq_true, ih]
        rw [validateQuestions_eq_nil_iff]
      | str s => simp [validateAreas, List.all_cons]
      | num n => simp [validateAreas, List.all_cons]
      | bool b => simp [validateAreas, List.all_cons]
      | null => simp [validateAreas, List.all_cons]
      | obj kvs => simp [validateAreas, List.all_cons]

theorem validateSubjects_eq_nil_iff (kvs : List (String × Json)) :
    validateSubjects kvs = [] ↔ strictMappingOk kvs = true := by
  induction kvs with
  | nil => simp [validateSubjects, strictMappingOk]
  | cons hd rest ih =>
    cases hd with
    | mk subject areas =>
      by_cases hu : startsUnderscore subject = true
      · simp [validateSubjects, strictMappingOk, hu, ih]
      · cases areas with
        | obj ars =>
          simp only [validateSubjects, strictMappingOk, hu, if_neg, Bool.false_eq_true,
            if_false, List.append_eq_nil, Bool.and_eq_true, ih]
          rw [validateAreas_eq_nil_iff]
        | str s => simp [validateSubjects, strictMappingOk, hu]
        | num n => simp [validateSubjects, strictMappingOk, hu]
        | bool b => simp [validateSubjects, strictMappingOk, hu]
        | null => simp [validateSubjects, strictMappingOk, hu]
        | arr xs => simp [validateSubjects, strictMappingOk, hu]

theorem exceptBind_ok {α β : Type} (x : Except String α) (f : α → Except String β) (b : β)
    (h : x.bind f = .ok b) : ∃ a, x = .ok a ∧ f a = .ok b := by
  cases x with
  | error e => exact absurd h (by simp [Except.bind])
  | ok a => exact ⟨a, rfl, h⟩

theorem checkKey_ok (name : String) (o : Option (List String)) (l : List String)
    (h : checkKey name o = .ok l) : o ≠ some [] ∧ l = o.getD [] := by
  cases o with
  | none =>
    refine ⟨by simp, ?_⟩
    simpa [checkKey] using h.symm
  | some m =>
    cases m with
    | nil => exact absurd h (by simp [checkKey])
    | cons x xs =>
      refine ⟨by simp, ?_⟩
      have : l = x :: xs := by simpa [checkKey] using h.symm
      simp [this]

/-- Claim C9 (amended): a configuration is stored by `configure_marking`
only when every uploaded answer key parsed non-empty, at least one key is
non-empty, and the concept mapping passed strict validation — so scoring,
which runs only against stored configurations, never sees a rejected
upload; and the validator accepts exactly the mappings in which every
non-underscore subject maps to an object of areas, each area to a list of
non-blank string identifiers.  (A key that was simply never uploaded is
stored as the empty list, and a sheet for that subject is still scored; see
the counterexample.) -/
theorem config_validation_before_storage :
    (∀ reading qr ar concepts cfg,
        configure_marking reading qr ar concepts = .ok cfg →
        validate_concept_mapping cfg.concept_mapping = [] ∧
        cfg.is_configured = true ∧
        reading ≠ some [] ∧ qr ≠ some [] ∧ ar ≠ some []) ∧
    (∀ kvs, validateSubjects kvs = [] ↔ strictMappingOk kvs = true) := by
  constructor
  · intro r q a c cfg h
    unfold configure_marking at h
    obtain ⟨rl, hr, h⟩ := exceptBind_ok _ _ _ h
    obtain ⟨ql, hq, h⟩ := exceptBind_ok _ _ _ h
    obtain ⟨al, ha, h⟩ := exceptBind_ok _ _ _ h
    split at h
    · exact absurd h (by simp)
    · rename_i hcond
      cases c with
      | none =>
        injection h with h'
        subst h'
        refine ⟨rfl, ?_, (checkKey_ok _ _ _ hr).1, (checkKey_ok _ _ _ hq).1,
          (checkKey_ok _ _ _ ha).1⟩
        simp only [MarkingConfiguration.is_configured]
        cases hrl : rl.isEmpty <;> cases hql : ql.isEmpty <;>
          cases hal : al.isEmpty <;> simp_all
      | some j =>
        dsimp only at h
        cases hv : validate_concept_mapping j with
        | nil =>
          rw [hv] at h
          injection h with h'
          subst h'
          refine ⟨hv, ?_, (checkKey_ok _ _ _ hr).1, (checkKey_ok _ _ _ hq).1,
            (checkKey_ok _ _ _ ha).1⟩
          simp only [MarkingConfiguration.is_configured]
          cases hrl : rl.isEmpty <;> cases hql : ql.isEmpty <;>
            cases hal : al.isEmpty <;> simp_all
        | cons e es =>
          rw [hv] at h
          exact absurd h (by simp)
  · exact validateSubjects_eq_nil_iff

/-- Witness for C9: a well-formed upload (one non-empty Reading key, a valid
concept mapping) is accepted, and the stored configuration passes strict
validation and is configured. -/
theorem config_validation_before_storage_witness :
    validate_concept_mapping cfgOk.concept_mapping = [] ∧
    cfgOk.is_configured = true :=
  ⟨(config_validation_before_storage.1 (some ["A"]) none none (some jsonOk) cfgOk rfl).1,
   (config_validation_before_storage.1 (some ["A"]) none none (some jsonOk) cfgOk rfl).2.1⟩

/-- Counterexample to C9 as stated: when no Reading key is uploaded at all,
the stored configuration's Reading answer key is empty, yet no validation
failure occurs, and the single-student marking flow still invokes the scorer
on that empty key, producing a zero-question subject result instead of
rejecting the configuration. -/
theorem empty_key_reaches_scoring :
    configure_marking none (some ["A"]) none none = .ok cfgEmptyReading ∧
    cfgEmptyReading.is_configured = true ∧
    cfgEmptyReading.reading_answers = [] ∧
    process_single_student cfgEmptyReading (some [("1", Val.str "A")]) none
      = .ok (some ⟨"Reading", 0, 0, [], [("1", Val.str "A")]⟩, none) :=
  ⟨rfl, rfl, rfl, rfl⟩
